import Mathlib

/-!
Verification of the trustworthiness-scoring pipeline (metric calculators and
aggregator) of the Phase2SWE repository, as a shallow embedding in Lean 4.

Python strings are modelled as `List Char` (`PyStr`); Python floats are
modelled as exact rationals `ℚ`; Python dicts with a fixed set of keys are
modelled as structures with `Option` fields where the key may be absent;
Python code that catches exceptions is modelled with `Except`, the caught
branch being the `.error` case.  Every definition is translated from the
repository source (file and line references in the doc comments).
-/

/-- Python strings, modelled as lists of characters. -/
abbrev PyStr := List Char

/-- Python error values (the message of a caught exception). -/
abbrev PyErr := String

/-- Python `str.strip()` whitespace test for the ASCII whitespace characters
`' '`, `'\t'`, `'\n'`, `'\v'`, `'\f'`, `'\r'` (code points 32 and 9–13). -/
def isPySpace (c : Char) : Bool :=
  decide (c.toNat = 32 ∨ (9 ≤ c.toNat ∧ c.toNat ≤ 13))

/-- Python `str.lower()` on a single character, for the ASCII range:
uppercase letters (code points 65–90) are shifted to lowercase. -/
def pyLowerChar (c : Char) : Char :=
  if 65 ≤ c.toNat ∧ c.toNat ≤ 90 then Char.ofNat (c.toNat + 32) else c

/-- Python `str.upper()` on a single character, for the ASCII range. -/
def pyUpperChar (c : Char) : Char :=
  if 97 ≤ c.toNat ∧ c.toNat ≤ 122 then Char.ofNat (c.toNat - 32) else c

/-- Python `str.lower()`. -/
def pyLower (s : PyStr) : PyStr := s.map pyLowerChar

/-- Python `str.upper()`. -/
def pyUpper (s : PyStr) : PyStr := s.map pyUpperChar

/-- Python `str.strip()`: drop whitespace from both ends. -/
def pyStrip (s : PyStr) : PyStr :=
  ((s.dropWhile isPySpace).reverse.dropWhile isPySpace).reverse

/-- Python `needle in hay` for strings: contiguous-substring test. -/
def pyContains (hay needle : PyStr) : Bool :=
  (List.range (hay.length + 1)).any (fun i => needle.isPrefixOf (hay.drop i))

/-- The running-`seen`-set traversal behind first-occurrence de-duplication,
as performed by the Python `seen`-set idiom in `BusFactorMetric.get_data`
(src/cli/Metric_tobedeleted/bus_factor_metric.py): an element is kept exactly
when it has not been seen before. -/
def pyFirstDedupAux {α : Type} [DecidableEq α] (seen : List α) :
    List α → List α
  | [] => []
  | a :: rest =>
    if a ∈ seen then pyFirstDedupAux seen rest
    else a :: pyFirstDedupAux (a :: seen) rest

/-- De-duplication keeping the first occurrence of each element. -/
def pyFirstDedup {α : Type} [DecidableEq α] (l : List α) : List α :=
  pyFirstDedupAux [] l

/-- Round-half-to-even on rationals, the tie-breaking rule of Python's
built-in `round`. -/
def roundHalfEven (x : ℚ) : ℤ :=
  if x - ⌊x⌋ < 1/2 then ⌊x⌋
  else if 1/2 < x - ⌊x⌋ then ⌊x⌋ + 1
  else if 2 ∣ ⌊x⌋ then ⌊x⌋ else ⌊x⌋ + 1

/-- Python `round(x, 2)`: round to two decimal places, ties to even. -/
def round2 (x : ℚ) : ℚ := (roundHalfEven (100 * x) : ℚ) / 100

/-- Clamp to `[0, 1]`, as in `max(0.0, min(1.0, x))`. -/
def clamp01 (x : ℚ) : ℚ := max 0 (min 1 x)

/-! ### Basic lemmas about the Python-string and rounding helpers -/

/-- Evaluating `Char.ofNat` at a valid code point. -/
theorem toNat_charOfNat_of_valid (n : ℕ) (h : Nat.isValidChar n) :
    (Char.ofNat n).toNat = n := by
  rw [Char.ofNat, dif_pos h]
  rfl

theorem isPySpace_pyLowerChar (c : Char) :
    isPySpace (pyLowerChar c) = isPySpace c := by
  unfold pyLowerChar
  split
  · next h =>
    have hv : Nat.isValidChar (c.toNat + 32) := Or.inl (by omega)
    have ht : (Char.ofNat (c.toNat + 32)).toNat = c.toNat + 32 :=
      toNat_charOfNat_of_valid _ hv
    unfold isPySpace
    rw [ht]
    have h1 : ¬(c.toNat + 32 = 32 ∨ (9 ≤ c.toNat + 32 ∧ c.toNat + 32 ≤ 13)) := by
      omega
    have h2 : ¬(c.toNat = 32 ∨ (9 ≤ c.toNat ∧ c.toNat ≤ 13)) := by
      omega
    rw [decide_eq_false h1, decide_eq_false h2]
  · rfl

theorem pyLowerChar_idem (c : Char) :
    pyLowerChar (pyLowerChar c) = pyLowerChar c := by
  by_cases h : 65 ≤ c.toNat ∧ c.toNat ≤ 90
  · have hv : Nat.isValidChar (c.toNat + 32) := Or.inl (by omega)
    have ht : (Char.ofNat (c.toNat + 32)).toNat = c.toNat + 32 :=
      toNat_charOfNat_of_valid _ hv
    have hlc : pyLowerChar c = Char.ofNat (c.toNat + 32) := by
      rw [pyLowerChar, if_pos h]
    rw [hlc, pyLowerChar, ht, if_neg (by omega)]
  · have hlc : pyLowerChar c = c := by
      rw [pyLowerChar, if_neg h]
    rw [hlc, hlc]

theorem pyLower_idem (s : PyStr) : pyLower (pyLower s) = pyLower s := by
  unfold pyLower
  rw [List.map_map]
  exact List.map_congr_left (fun c _ => pyLowerChar_idem c)

theorem pyLower_eq_nil_iff (s : PyStr) : pyLower s = [] ↔ s = [] := by
  unfold pyLower
  exact List.map_eq_nil_iff

/-- `dropWhile` and `map` commute when the predicate is invariant under the
mapped function. -/
theorem dropWhile_map_pyLowerChar (l : List Char) :
    (l.map pyLowerChar).dropWhile isPySpace =
      (l.dropWhile isPySpace).map pyLowerChar := by
  rw [List.dropWhile_map]
  have hp : isPySpace ∘ pyLowerChar = isPySpace :=
    funext isPySpace_pyLowerChar
  rw [hp]

/-- Lower-casing commutes with stripping: `strip (lower s) = lower (strip s)`. -/
theorem pyStrip_pyLower (s : PyStr) :
    pyStrip (pyLower s) = pyLower (pyStrip s) := by
  unfold pyStrip pyLower
  rw [dropWhile_map_pyLowerChar, ← List.map_reverse, dropWhile_map_pyLowerChar,
    ← List.map_reverse]

theorem dropWhile_idem (p : α → Bool) (l : List α) :
    (l.dropWhile p).dropWhile p = l.dropWhile p := by
  induction l with
  | nil => rfl
  | cons a l ih =>
    by_cases h : p a
    · simp [List.dropWhile_cons, h, ih]
    · simp [List.dropWhile_cons, h]

/-- The head of `dropWhile p l` (when there is one) does not satisfy `p`. -/
theorem head_dropWhile_not (p : α → Bool) (l : List α) (a : α)
    (h : (l.dropWhile p).head? = some a) : p a = false := by
  induction l with
  | nil => simp [List.dropWhile] at h
  | cons b l ih =>
    rw [List.dropWhile_cons] at h
    by_cases hb : p b
    · simp [hb] at h
      exact ih h
    · simp [hb] at h
      subst h
      simpa using hb

/-- A list whose head does not satisfy `p` is unchanged by `dropWhile p`. -/
theorem dropWhile_eq_self_of_head (p : α → Bool) (l : List α)
    (h : ∀ a, l.head? = some a → p a = false) : l.dropWhile p = l := by
  cases l with
  | nil => rfl
  | cons a l =>
    have := h a rfl
    simp [List.dropWhile_cons, this]

/-- A prefix of a list whose head fails `p` also has a head failing `p`. -/
theorem head_of_prefix_fails {p : α → Bool} {l m : List α}
    (hpre : l <+: m) (h : ∀ a, m.head? = some a → p a = false) :
    ∀ a, l.head? = some a → p a = false := by
  intro a ha
  cases l with
  | nil => simp at ha
  | cons b l =>
    obtain ⟨t, ht⟩ := hpre
    have hb : m.head? = some b := by
      rw [← ht]
      rfl
    simp only [List.head?_cons, Option.some.injEq] at ha
    exact ha ▸ h b hb

theorem pyStrip_idem (s : PyStr) : pyStrip (pyStrip s) = pyStrip s := by
  unfold pyStrip
  set m := s.dropWhile isPySpace with hm
  have hmhead : ∀ a, m.head? = some a → isPySpace a = false :=
    fun a ha => head_dropWhile_not _ _ _ ha
  set u := (m.reverse.dropWhile isPySpace).reverse with hu
  -- `u` is a prefix of `m`, hence its head also fails `isPySpace`
  have hupre : u <+: m := by
    rw [hu]
    have : m.reverse.dropWhile isPySpace <:+ m.reverse := List.dropWhile_suffix _
    rw [← List.reverse_prefix] at this
    simpa using this
  have huhead : ∀ a, u.head? = some a → isPySpace a = false :=
    head_of_prefix_fails hupre hmhead
  rw [dropWhile_eq_self_of_head _ u huhead]
  have : u.reverse.dropWhile isPySpace = u.reverse := by
    rw [hu, List.reverse_reverse]
    exact dropWhile_idem _ _
  rw [this, List.reverse_reverse]

theorem mem_pyFirstDedupAux {α : Type} [DecidableEq α] (l : List α) :
    ∀ (seen : List α) (x : α),
      x ∈ pyFirstDedupAux seen l ↔ (x ∈ l ∧ x ∉ seen) := by
  induction l with
  | nil =>
    intro seen x
    simp [pyFirstDedupAux]
  | cons a rest ih =>
    intro seen x
    rw [pyFirstDedupAux]
    by_cases h : a ∈ seen
    · rw [if_pos h, ih]
      constructor
      · rintro ⟨hr, hs⟩
        exact ⟨List.mem_cons_of_mem _ hr, hs⟩
      · rintro ⟨hc, hs⟩
        rcases List.mem_cons.mp hc with rfl | hr
        · exact absurd h hs
        · exact ⟨hr, hs⟩
    · rw [if_neg h]
      constructor
      · intro hx
        rcases List.mem_cons.mp hx with rfl | hr
        · exact ⟨List.mem_cons_self _ _, h⟩
        · obtain ⟨h1, h2⟩ := (ih _ _).mp hr
          refine ⟨List.mem_cons_of_mem _ h1, fun hs => h2 (List.mem_cons_of_mem _ hs)⟩
      · rintro ⟨hc, hs⟩
        rcases List.mem_cons.mp hc with rfl | hr
        · exact List.mem_cons_self _ _
        · by_cases hxa : x = a
          · exact hxa ▸ List.mem_cons_self _ _
          · refine List.mem_cons_of_mem _ ((ih _ _).mpr ⟨hr, ?_⟩)
            intro hmem
            rcases List.mem_cons.mp hmem with h' | h'
            · exact hxa h'
            · exact hs h'

/-- Membership is preserved by first-occurrence de-duplication. -/
theorem mem_pyFirstDedup {α : Type} [DecidableEq α] (l : List α) (x : α) :
    x ∈ pyFirstDedup l ↔ x ∈ l := by
  rw [pyFirstDedup, mem_pyFirstDedupAux]
  simp

/-- Two lists with the same elements have de-duplications of the same
length (the number of distinct elements). -/
theorem dedup_length_congr {α : Type} [DecidableEq α] (A B : List α)
    (h : ∀ x, x ∈ A ↔ x ∈ B) : A.dedup.length = B.dedup.length := by
  rw [← List.card_toFinset, ← List.card_toFinset]
  congr 1
  ext x
  simp only [List.mem_toFinset]
  exact h x

/-- `roundHalfEven` of an integer is that integer. -/
theorem roundHalfEven_intCast (n : ℤ) : roundHalfEven (n : ℚ) = n := by
  unfold roundHalfEven
  rw [Int.floor_intCast]
  norm_num

theorem roundHalfEven_of_lt {x : ℚ} (h : x - ⌊x⌋ < 1/2) :
    roundHalfEven x = ⌊x⌋ := by
  rw [roundHalfEven, if_pos h]

theorem roundHalfEven_of_gt {x : ℚ} (h : 1/2 < x - ⌊x⌋) :
    roundHalfEven x = ⌊x⌋ + 1 := by
  rw [roundHalfEven, if_neg (by linarith), if_pos h]

theorem roundHalfEven_of_eq_even {x : ℚ} (h : x - ⌊x⌋ = 1/2) (he : 2 ∣ ⌊x⌋) :
    roundHalfEven x = ⌊x⌋ := by
  rw [roundHalfEven, if_neg (by linarith), if_neg (by linarith), if_pos he]

theorem roundHalfEven_of_eq_odd {x : ℚ} (h : x - ⌊x⌋ = 1/2) (he : ¬2 ∣ ⌊x⌋) :
    roundHalfEven x = ⌊x⌋ + 1 := by
  rw [roundHalfEven, if_neg (by linarith), if_neg (by linarith), if_neg he]

theorem floor_le_roundHalfEven (x : ℚ) : ⌊x⌋ ≤ roundHalfEven x := by
  unfold roundHalfEven
  split
  · exact le_refl _
  · split
    · omega
    · split <;> omega

theorem roundHalfEven_le_floor_add_one (x : ℚ) :
    roundHalfEven x ≤ ⌊x⌋ + 1 := by
  unfold roundHalfEven
  split
  · omega
  · split
    · omega
    · split <;> omega

/-- `roundHalfEven` is monotone. -/
theorem roundHalfEven_mono {x y : ℚ} (h : x ≤ y) :
    roundHalfEven x ≤ roundHalfEven y := by
  have hf : ⌊x⌋ ≤ ⌊y⌋ := Int.floor_mono h
  by_cases hlt : ⌊x⌋ < ⌊y⌋
  · calc roundHalfEven x ≤ ⌊x⌋ + 1 := roundHalfEven_le_floor_add_one x
      _ ≤ ⌊y⌋ := hlt
      _ ≤ roundHalfEven y := floor_le_roundHalfEven y
  · have heq : ⌊x⌋ = ⌊y⌋ := le_antisymm hf (not_lt.mp hlt)
    have hr : x - ⌊x⌋ ≤ y - ⌊y⌋ := by
      rw [← heq]
      exact sub_le_sub_right h _
    rcases lt_trichotomy (x - ⌊x⌋) (1/2 : ℚ) with h1 | h1 | h1
    · rw [roundHalfEven_of_lt h1]
      calc (⌊x⌋ : ℤ) ≤ ⌊y⌋ := hf
        _ ≤ roundHalfEven y := floor_le_roundHalfEven y
    · -- x sits exactly on a tie
      by_cases he : 2 ∣ ⌊x⌋
      · rw [roundHalfEven_of_eq_even h1 he]
        calc (⌊x⌋ : ℤ) ≤ ⌊y⌋ := hf
          _ ≤ roundHalfEven y := floor_le_roundHalfEven y
      · rw [roundHalfEven_of_eq_odd h1 he]
        rcases lt_or_eq_of_le (h1 ▸ hr) with h2 | h2
        · rw [roundHalfEven_of_gt h2]
          omega
        · rw [roundHalfEven_of_eq_odd h2.symm (heq ▸ he)]
          omega
    · rw [roundHalfEven_of_gt h1]
      have h2 : 1/2 < y - ⌊y⌋ := lt_of_lt_of_le h1 hr
      rw [roundHalfEven_of_gt h2]
      omega

/-- `round2` is monotone. -/
theorem round2_mono {x y : ℚ} (h : x ≤ y) : round2 x ≤ round2 y := by
  unfold round2
  have h100 : (100 : ℚ) * x ≤ 100 * y := by linarith
  have := roundHalfEven_mono h100
  have hc : ((roundHalfEven (100 * x) : ℤ) : ℚ) ≤ ((roundHalfEven (100 * y) : ℤ) : ℚ) := by
    exact_mod_cast this
  linarith

/-- `round2` is the identity on rationals with at most two decimal places. -/
theorem round2_eq_self_of_den (x : ℚ) (n : ℤ) (h : 100 * x = (n : ℚ)) :
    round2 x = x := by
  unfold round2
  rw [h, roundHalfEven_intCast]
  rw [← h]
  ring

/-! ### Size metric (src/cli/metrics/size_metric.py) -/

/-- The per-device score map produced by `SizeMetric` (device classes and
their order as in `size_metric.py` lines 44–49). -/
structure SizeScores where
  raspberry_pi : ℚ
  jetson_nano : ℚ
  desktop_pc : ℚ
  aws_server : ℚ
deriving DecidableEq

/-- The values of the size-score map, in insertion order, as consumed by the
aggregator (`size_obj.values()` in `main.py` line 47). -/
def SizeScores.values (s : SizeScores) : List ℚ :=
  [s.raspberry_pi, s.jetson_nano, s.desktop_pc, s.aws_server]

/-- One device entry of the loop body of `SizeMetric.calculate_score`
(size_metric.py lines 52–57): full-credit curve `0.5 + 0.5*(1 - s/T)` at or
below the threshold, decay `max(0, 1 - (s-T)/(2T))` above it, clamped to
`[0,1]` and rounded to two decimals. -/
def deviceScore (max_size size_mb : ℚ) : ℚ :=
  let val :=
    if size_mb ≤ max_size then 1/2 + 1/2 * (1 - size_mb / max_size)
    else max 0 (1 - (size_mb - max_size) / (2 * max_size))
  round2 (max 0 (min val 1))

/-- `SizeMetric.calculate_score` (size_metric.py lines 26–61): all-zero map
when `size_mb <= 0`, otherwise one `deviceScore` per threshold
(raspberry_pi 50, jetson_nano 200, desktop_pc 2000, aws_server 10000). -/
def SizeMetric.calculate_score (size_mb : ℚ) : SizeScores :=
  if size_mb ≤ 0 then ⟨0, 0, 0, 0⟩
  else ⟨deviceScore 50 size_mb, deviceScore 200 size_mb,
        deviceScore 2000 size_mb, deviceScore 10000 size_mb⟩

/-- The metadata record consumed by `SizeMetric.get_data`: only the
`model_size_mb` field is read. -/
structure SizeMeta where
  model_size_mb : Option ℚ

/-- `SizeMetric.get_data` (size_metric.py lines 21–24):
`parsed_data.get("model_size_mb", 0)`. -/
def SizeMetric.get_data (parsed_data : SizeMeta) : ℚ :=
  parsed_data.model_size_mb.getD 0

/-- The possible arguments of `SizeMetric.calculate`: a URL string, an
already-parsed metadata record, or anything else. -/
inductive SizeInput where
  | url (s : PyStr)
  | record (m : SizeMeta)
  | other

/-- `SizeMetric.calculate` (size_metric.py lines 63–93).  Line 65 rebinds
`parsed_data` to the empty dict `{}` before the `isinstance` tests, so the
empty dict (never a string) is what reaches `get_data`; no fetch happens and
the argument is never consulted.  The `except` branch also yields the
all-zero map, so the function is total. -/
def SizeMetric.calculate (_input : SizeInput) : SizeScores :=
  let parsed_data : SizeMeta := ⟨none⟩
  SizeMetric.calculate_score (SizeMetric.get_data parsed_data)

/-! ### Aggregator (src/cli/main.py) -/

/-- The `WEIGHTS` dict of main.py lines 15–23. -/
def WEIGHTS (k : String) : ℚ :=
  if k = "ramp_up_time" then 0.20
  else if k = "bus_factor" then 0.15
  else if k = "performance_claims" then 0.15
  else if k = "license" then 0.10
  else if k = "size_score" then 0.15
  else if k = "dataset_and_code_score" then 0.15
  else if k = "code_quality" then 0.10
  else 0

/-- The flattened metric-results mapping consumed by `process_url`
(main.py lines 38–40).  Each scalar sub-metric entry is an optional rational
(absent key modelled as `none`); `size_score` is an optional list of the
device-map values (absent key or non-dict value modelled as `none`, an empty
dict as `some []`); `latencies` gathers the integer `*_latency` values. -/
structure MetricsResults where
  ramp_up_time : Option ℚ
  bus_factor : Option ℚ
  performance_claims : Option ℚ
  license : Option ℚ
  size_score : Option (List ℚ)
  dataset_and_code_score : Option ℚ
  code_quality : Option ℚ
  latencies : List ℤ

/-- Size-map averaging of main.py lines 44–48: the arithmetic mean of the
dict values when `size_score` is a non-empty dict, `0.0` otherwise. -/
def sizeMean (size_obj : Option (List ℚ)) : ℚ :=
  match size_obj with
  | some vals => if vals = [] then 0 else vals.sum / (vals.length : ℚ)
  | none => 0

/-- Python `url.split("/")` (always returns a non-empty list of parts). -/
def pySplitSlash : PyStr → List PyStr
  | [] => [[]]
  | c :: rest =>
    match pySplitSlash rest with
    | [] => [[]]
    | cur :: parts => if c = '/' then [] :: cur :: parts else (c :: cur) :: parts

/-- The derived fields of the record returned by `process_url`. -/
structure ResultRecord where
  net_score : ℚ
  net_score_latency : ℤ
  name : PyStr
  category : PyStr

/-- `process_url` (main.py lines 26–96), from the flattened metric results
onward: the weighted net score with clamping (lines 44–64), the summed net
latency (lines 66–70), the name extraction (lines 77–84) and the category
classification (lines 87–94). -/
def process_url (url : PyStr) (metrics_results : MetricsResults) : ResultRecord :=
  let size_mean := sizeMean metrics_results.size_score
  let net :=
    WEIGHTS "ramp_up_time" * metrics_results.ramp_up_time.getD 0
    + WEIGHTS "bus_factor" * metrics_results.bus_factor.getD 0
    + WEIGHTS "performance_claims" * metrics_results.performance_claims.getD 0
    + WEIGHTS "license" * metrics_results.license.getD 0
    + WEIGHTS "size_score" * size_mean
    + WEIGHTS "dataset_and_code_score" * metrics_results.dataset_and_code_score.getD 0
    + WEIGHTS "code_quality" * metrics_results.code_quality.getD 0
  let net := max 0 (min 1 net)
  let net_latency := metrics_results.latencies.sum
  let path_parts := pySplitSlash url
  let name :=
    if path_parts.getLastD [] ≠ [] then path_parts.getLastD []
    else if 2 < path_parts.length then path_parts.getD (path_parts.length - 2) []
    else url
  let category :=
    if pyContains url "huggingface.co/datasets".data then "DATASET".data
    else if pyContains url "huggingface.co".data then "MODEL".data
    else if pyContains url "github.com".data then "REPO".data
    else "UNKNOWN".data
  { net_score := net, net_score_latency := net_latency,
    name := name, category := category }

/-! ### Ramp-up-time metric (src/cli/metrics/rampup_metric.py) -/

/-- The feature-data record built by `RampUpMetric.get_data`
(rampup_metric.py lines 146–157) and consumed by `calculate_score`.
The `tags` entry of the Python dict is not read by `calculate_score` and is
omitted. -/
structure RampUpData where
  category : PyStr
  has_quick_start_guide : Bool
  has_installation_instructions : Bool
  has_runnable_examples : Bool
  has_minimal_dependencies : Bool
  model_complexity : PyStr
  has_clear_documentation : Bool
  description_length : ℕ

/-- `RampUpMetric.calculate_score` (rampup_metric.py lines 178–249) for a
non-empty feature-data record: the additive components, the complexity
bonus/penalty, the category bonus/penalty, and the upper cap `min(score, 1.0)`
of line 244.  (The `if not data` branch of lines 179–182, which yields `0.0`
for an empty dict, cannot trigger on a record produced by `get_data`.) -/
def RampUpMetric.calculate_score (data : RampUpData) : ℚ :=
  let s1 : ℚ :=
    if data.has_clear_documentation then
      if 300 < data.description_length then 0.30
      else if 150 < data.description_length then 0.25
      else if 100 < data.description_length then 0.15
      else 0.10
    else 0
  let s2 : ℚ := if data.has_quick_start_guide then 0.25 else 0
  let s3 : ℚ := if data.has_installation_instructions then 0.20 else 0
  let s4 : ℚ := if data.has_runnable_examples then 0.15 else 0
  let s5 : ℚ := if data.has_minimal_dependencies then 0.10 else 0
  let c : ℚ :=
    if data.model_complexity = "small".data then 0.05
    else if data.model_complexity = "large".data then -0.05
    else 0
  let g : ℚ :=
    if data.category = "DATASET".data then 0.05
    else if data.category = "CODE".data ∧ ¬data.has_runnable_examples then -0.05
    else 0
  min (s1 + s2 + s3 + s4 + s5 + c + g) 1

/-- `RampUpMetric.calculate` (rampup_metric.py lines 159–176).  The `try`
body — the metadata fetch / dict passthrough followed by `get_data` — is a
fallible computation whose outcome is the argument; the `except Exception`
branch of lines 172–174 forces the score to `0.0`. -/
def RampUpMetric.calculate (body : Except PyErr RampUpData) : ℚ :=
  match body with
  | .ok data => RampUpMetric.calculate_score data
  | .error _ => 0

/-! ### License metric, aggregator-side variant
(src/cli/Metric_tobedeleted/license_metric.py) -/

/-- `HIGH_QUALITY_LICENSES` (license_metric.py lines 16–22). -/
def HIGH_QUALITY_LICENSES : List PyStr :=
  ["mit", "apache-2.0", "bsd-2-clause", "bsd-3-clause", "isc"].map String.data

/-- `MEDIUM_QUALITY_LICENSES` (license_metric.py lines 23–30). -/
def MEDIUM_QUALITY_LICENSES : List PyStr :=
  ["gpl-3.0", "gpl-2.0", "lgpl-2.1", "lgpl-3.0", "mpl-2.0", "epl-2.0"].map
    String.data

/-- `LicenseMetric.get_data` (license_metric.py lines 42–96): return the
stripped `license` field when it is a string with non-empty strip; otherwise
fall back to the GitHub license-API / README scan, whose outcome (absent on
any failure, non-CODE URL, or missing data) is the `fallback` argument. -/
def LicenseMetric.get_data (license_field fallback : Option PyStr) :
    Option PyStr :=
  match license_field with
  | some v => if pyStrip v ≠ [] then some (pyStrip v) else fallback
  | none => fallback

/-- The scoring chain of `LicenseMetric.calculate` (license_metric.py lines
105–117): `score = 0.0` stands unless `license_str` is truthy, in which case
the normalized string is matched against the tier sets. -/
def LicenseMetric.score_of (license_str : Option PyStr) : ℚ :=
  match license_str with
  | none => 0
  | some s =>
    if s = [] then 0
    else
      let norm := pyLower (pyStrip s)
      if norm ∈ HIGH_QUALITY_LICENSES then 1
      else if norm ∈ MEDIUM_QUALITY_LICENSES then 0.7
      else if pyContains norm "custom".data then 0.5
      else if norm = "unknown".data then 0.2
      else 0.2

/-- `LicenseMetric.calculate` (license_metric.py lines 98–129): the `try`
body resolves the license string (record field plus API fallback); the
`except` branch forces `0.0`; the returned score is rounded to two
decimals. -/
def LicenseMetric.calculate (body : Except PyErr (Option PyStr × Option PyStr)) :
    ℚ :=
  match body with
  | .ok (license_field, fallback) =>
    round2 (LicenseMetric.score_of (LicenseMetric.get_data license_field fallback))
  | .error _ => round2 0

/-! ### License metric, utils variant (src/cli/utils/metrics/license.py) -/

/-- `high_quality` (license.py lines 24–27). -/
def utilsHighQuality : List PyStr :=
  ["mit", "apache-2.0", "bsd-3-clause", "bsd-2-clause",
   "cc0", "cc0-1.0", "isc", "zlib", "unlicense"].map String.data

/-- `medium_quality` (license.py lines 28–31). -/
def utilsMediumQuality : List PyStr :=
  ["mpl-2.0", "lgpl-3.0", "cc-by-4.0", "cc-by-sa-4.0", "epl-2.0",
   "artistic-2.0", "agpl-3.0", "openrail"].map String.data

/-- `LicenseMetric.calculate_metric` of the utils hierarchy (license.py
lines 20–43): `data.get("license", "unknown").lower()` followed by the tier
chain (note: exact equality for `custom`/`unknown`, substring containment
for the two quality lists, no strip, `0` in the final else). -/
def UtilsLicenseMetric.calculate_metric (license_field : Option PyStr) : ℚ :=
  let license_name := pyLower (license_field.getD "unknown".data)
  if license_name = "custom".data then 0.5
  else if license_name = "unknown".data then 0.2
  else if utilsHighQuality.any (fun key => pyContains license_name key) then 1
  else if utilsMediumQuality.any (fun key => pyContains license_name key) then 0.75
  else 0

/-! ### Performance-claims metric
(src/cli/Metric_tobedeleted/performance_claims_metric.py) -/

/-- The slice of the upstream hub metadata read by
`PerformanceClaimsMetric.get_data` (performance_claims_metric.py lines
16–27).  Each `model-index` entry is represented by its number of `results`
(`0` for a non-dict entry or an entry with falsy `results`); the
`cardData` sub-dict is represented by the truthiness of its `model-index`
value. -/
structure PerfMetadata where
  model_index : List ℕ
  tags : List PyStr
  cardData_model_index : Bool
  downloads : ℤ
  likes : ℤ

/-- The defaults used when the `metadata` key is absent. -/
def PerfMetadata.empty : PerfMetadata := ⟨[], [], false, 0, 0⟩

/-- The argument of `PerformanceClaimsMetric.get_data`: the parsed record,
with its optional `metadata` sub-dict and optional `category`. -/
structure PerfParsedData where
  metadata : Option PerfMetadata
  category : Option PyStr

/-- The feature record built by `PerformanceClaimsMetric.get_data`. -/
structure PerfData where
  model_index : List ℕ
  tags : List PyStr
  cardData_model_index : Bool
  downloads : ℤ
  likes : ℤ
  category : PyStr

/-- `PerformanceClaimsMetric.get_data` (performance_claims_metric.py lines
16–27): all fields from `parsed_data["metadata"]` with falsy defaults,
`category` from the record itself with default `"UNKNOWN"`. -/
def PerformanceClaimsMetric.get_data (parsed_data : PerfParsedData) : PerfData :=
  let md := parsed_data.metadata.getD PerfMetadata.empty
  { model_index := md.model_index, tags := md.tags,
    cardData_model_index := md.cardData_model_index,
    downloads := md.downloads, likes := md.likes,
    category := parsed_data.category.getD "UNKNOWN".data }

/-- The benchmark-related tag indicators (performance_claims_metric.py
lines 48–56). -/
def perf_tags : List PyStr :=
  ["arxiv:", "leaderboard", "benchmark", "evaluation", "sota",
   "state-of-the-art", "performance"].map String.data

/-- `PerformanceClaimsMetric.calculate_score` (performance_claims_metric.py
lines 29–79): `0.0` for non-MODEL records; otherwise the additive
components — first model-index entry with truthy `results` (+0.5, +0.2 if
more than one result), benchmark tag containment (+0.25), `cardData`
model-index with empty top-level model-index (+0.3), popularity tiers on
downloads/likes — then the `0.1` floor when the sum is zero and the cap
`min(score, 1.0)`. -/
def PerformanceClaimsMetric.calculate_score (data : PerfData) : ℚ :=
  if data.category ≠ "MODEL".data then 0
  else
    let s1 : ℚ :=
      match data.model_index.find? (fun n => decide (0 < n)) with
      | some n => 0.5 + (if 1 < n then 0.2 else 0)
      | none => 0
    let s2 : ℚ :=
      if data.tags.any (fun tag => perf_tags.any (fun pt => pyContains (pyLower tag) pt))
      then 0.25 else 0
    let s3 : ℚ := if data.cardData_model_index ∧ data.model_index = [] then 0.3 else 0
    let s4 : ℚ :=
      if 100000 < data.downloads ∨ 500 < data.likes then 0.4
      else if 10000 < data.downloads ∨ 100 < data.likes then 0.3
      else if 1000 < data.downloads ∨ 10 < data.likes then 0.2
      else if 100 < data.downloads ∨ 5 < data.likes then 0.1
      else 0
    let total := s1 + s2 + s3 + s4
    let total := if total = 0 then 0.1 else total
    min total 1

/-! ### Bus-factor metric (src/cli/Metric_tobedeleted/bus_factor_metric.py) -/

/-- The pre-supplied-authors branch of `BusFactorMetric.get_data`
(bus_factor_metric.py lines 69–77), taken when the record carries a truthy
`commit_authors` list: keep the first occurrence of each truthy raw entry
(the `seen`-set comprehension dedups on the raw value) and strip each kept
entry. -/
def BusFactorMetric.get_data (pre_authors : List PyStr) : List PyStr :=
  (pyFirstDedup (pre_authors.filter (fun a => a ≠ []))).map pyStrip

/-- The scoring step of `BusFactorMetric.calculate` (bus_factor_metric.py
lines 105–110): `unique_count = len(set(authors))`, then
`min(1.0, unique_count / 50.0)` when positive, else `0.0`. -/
def BusFactorMetric.score_of_authors (authors : List PyStr) : ℚ :=
  let unique_count := authors.dedup.length
  if 0 < unique_count then min 1 ((unique_count : ℚ) / 50) else 0

/-- `BusFactorMetric.calculate` (bus_factor_metric.py lines 98–119) for a
record carrying a pre-supplied `commit_authors` list, rounded to two
decimals as on line 117. -/
def BusFactorMetric.calculate (pre_authors : List PyStr) : ℚ :=
  round2 (BusFactorMetric.score_of_authors (BusFactorMetric.get_data pre_authors))

/-! ### Dataset-quality metric
(src/cli/Metric_tobedeleted/dataset_quality_metric.py) -/

/-- The feature record built by `DatasetQualityMetric.get_data`
(dataset_quality_metric.py lines 21–31); absent fields default to empty.
`siblings` keeps the `rfilename` of each dict entry (non-dict entries are
skipped by the comprehensions that consume them); the `cardData` and `tags`
entries are not read by the scoring code and are omitted. -/
structure DQData where
  dataset_url : PyStr
  code_url : PyStr
  description : PyStr
  siblings : List PyStr

/-- `DatasetQualityMetric._calculate_heuristic_score`
(dataset_quality_metric.py lines 33–76). -/
def DatasetQualityMetric.heuristic_score (data : DQData) : ℚ :=
  let s1 : ℚ := if data.dataset_url ≠ [] then 0.3 else 0
  let s2 : ℚ := if data.code_url ≠ [] then 0.3 else 0
  let s3 : ℚ :=
    if 100 < data.description.length then 0.2
    else if 50 < data.description.length then 0.1
    else 0
  let has_readme := data.siblings.any (fun f => "README".data.isPrefixOf (pyUpper f))
  let s4 : ℚ := if has_readme then 0.1 else 0
  let has_examples := data.siblings.any
    (fun f => pyContains (pyLower f) "example".data || pyContains (pyLower f) "tutorial".data)
  let s5 : ℚ := if has_examples then 0.1 else 0
  min (s1 + s2 + s3 + s4 + s5) 1

/-- `DatasetQualityMetric.calculate_score` (dataset_quality_metric.py lines
78–137): when an API key is configured and the LLM call returns a parsable
number, that number clamped to `[0,1]`; on call failure, non-200 status or
no key, the heuristic fallback.  `api` is `none` when no key is configured,
`some (.error _)` when the call or the float parse failed or the status was
not 200, and `some (.ok v)` on success. -/
def DatasetQualityMetric.calculate_score (api : Option (Except PyErr ℚ))
    (data : DQData) : ℚ :=
  match api with
  | some (.ok v) => max 0 (min 1 v)
  | some (.error _) => DatasetQualityMetric.heuristic_score data
  | none => DatasetQualityMetric.heuristic_score data

/-- `DatasetQualityMetric.calculate` (dataset_quality_metric.py lines
139–159): the `try` body — input normalisation, `get_data`,
`calculate_score` — with the `except` branch of lines 152–154 forcing the
score to `0.0`; the returned score is rounded to two decimals. -/
def DatasetQualityMetric.calculate (body : Except PyErr DQData)
    (api : Option (Except PyErr ℚ)) : ℚ :=
  match body with
  | .ok data => round2 (DatasetQualityMetric.calculate_score api data)
  | .error _ => round2 0

/-! ### Spec-side comparison definition for the license tiers -/

/-- The license tier table as the (amended) specification words it, for
comparison with `LicenseMetric.calculate`: `1.0` for the permissive set,
`0.7` for the copyleft set, `0.5` when the normalized identifier contains
`custom`, `0.2` for any other resolvable identifier (`unknown` included),
and `0.0` when no license is resolvable at all. -/
def licenseTierSpec (license_str : Option PyStr) : ℚ :=
  match license_str with
  | none => 0
  | some s =>
    if s = [] then 0
    else
      let norm := pyLower (pyStrip s)
      if norm ∈ HIGH_QUALITY_LICENSES then 1
      else if norm ∈ MEDIUM_QUALITY_LICENSES then 0.7
      else if pyContains norm "custom".data then 0.5
      else 0.2

/-! ## Theorems for the claims -/

/-- Auxiliary: `round2` fixes `0`. -/
theorem round2_zero : round2 0 = 0 :=
  round2_eq_self_of_den 0 0 (by norm_num)

/-- C1: for every URL string and every combination of sub-metric results —
sentinel values such as `-1.0`, scores of `0.0`, and absent entries
included — the `net_score` field of the record returned by `process_url`
lies in `[0.0, 1.0]`.  The embedding of `process_url` is a total function,
so the computation cannot raise. -/
theorem process_url_net_score_in_unit_interval
    (url : PyStr) (mr : MetricsResults) :
    0 ≤ (process_url url mr).net_score ∧ (process_url url mr).net_score ≤ 1 := by
  unfold process_url
  exact ⟨le_max_left _ _, max_le (by norm_num) (min_le_left _ _)⟩

/-- C1 witness: the bounds instantiated on a record of sentinel `-1.0`
scores and absent entries. -/
theorem process_url_net_score_in_unit_interval_witness :
    0 ≤ (process_url "https://huggingface.co/org/model".data
          ⟨some (-1), none, some 0, some (-1), none, none, some (-1), []⟩).net_score ∧
    (process_url "https://huggingface.co/org/model".data
          ⟨some (-1), none, some 0, some (-1), none, none, some (-1), []⟩).net_score ≤ 1 :=
  process_url_net_score_in_unit_interval _ _

/-- C2: the aggregator's `net_score` equals the clamp to `[0,1]` of the
fixed-weight linear combination `0.20*ramp_up_time + 0.15*bus_factor +
0.15*performance_claims + 0.10*license + 0.15*(mean of the size map, `0`
when empty or absent) + 0.15*dataset_and_code_score + 0.10*code_quality`,
each absent score contributing `0`; and the seven weights sum to `1.0`. -/
theorem process_url_net_score_formula (url : PyStr) (mr : MetricsResults) :
    (process_url url mr).net_score =
      max 0 (min 1 (
        (0.20 : ℚ) * mr.ramp_up_time.getD 0
        + 0.15 * mr.bus_factor.getD 0
        + 0.15 * mr.performance_claims.getD 0
        + 0.10 * mr.license.getD 0
        + 0.15 * (match mr.size_score with
            | some vals => if vals = [] then 0 else vals.sum / (vals.length : ℚ)
            | none => 0)
        + 0.15 * mr.dataset_and_code_score.getD 0
        + 0.10 * mr.code_quality.getD 0))
    ∧ WEIGHTS "ramp_up_time" + WEIGHTS "bus_factor" + WEIGHTS "performance_claims"
      + WEIGHTS "license" + WEIGHTS "size_score"
      + WEIGHTS "dataset_and_code_score" + WEIGHTS "code_quality" = 1 := by
  have w1 : WEIGHTS "ramp_up_time" = 0.20 := by simp [WEIGHTS]
  have w2 : WEIGHTS "bus_factor" = 0.15 := by simp [WEIGHTS]
  have w3 : WEIGHTS "performance_claims" = 0.15 := by simp [WEIGHTS]
  have w4 : WEIGHTS "license" = 0.10 := by simp [WEIGHTS]
  have w5 : WEIGHTS "size_score" = 0.15 := by simp [WEIGHTS]
  have w6 : WEIGHTS "dataset_and_code_score" = 0.15 := by simp [WEIGHTS]
  have w7 : WEIGHTS "code_quality" = 0.10 := by simp [WEIGHTS]
  constructor
  · unfold process_url sizeMean
    rw [w1, w2, w3, w4, w5, w6, w7]
  · rw [w1, w2, w3, w4, w5, w6, w7]
    norm_num

/-- C3: no exception crosses a metric calculator's public `calculate`
boundary — the `except` branch yields the floor score `0.0` — and the
aggregator `process_url` is a total function on well-formed URL strings,
always producing a record (its `category` field is always one of the four
enum values).  The embeddings of the `calculate` bodies are total Lean
functions, so the only way a Python exception can surface is the modelled
`.error` case, which each calculator maps to `0.0`. -/
theorem calculate_never_raises :
    (∀ e : PyErr, RampUpMetric.calculate (.error e) = 0)
    ∧ (∀ (e : PyErr) (api : Option (Except PyErr ℚ)),
        DatasetQualityMetric.calculate (.error e) api = 0)
    ∧ (∀ e : PyErr, LicenseMetric.calculate (.error e) = 0)
    ∧ (∀ (url : PyStr) (mr : MetricsResults),
        (process_url url mr).category = "DATASET".data
        ∨ (process_url url mr).category = "MODEL".data
        ∨ (process_url url mr).category = "REPO".data
        ∨ (process_url url mr).category = "UNKNOWN".data) := by
  refine ⟨fun e => rfl, fun e api => round2_zero, fun e => round2_zero, ?_⟩
  intro url mr
  unfold process_url
  split_ifs <;> simp

/-- C4: `SizeMetric.calculate` ignores its argument: line 65 of
size_metric.py rebinds the input to an empty record before scoring, so every
input — URL string, metadata record with any `model_size_mb`, or anything
else — produces the all-zero device map, whose mean contribution to
`net_score` is `0`: swapping the returned map for an absent `size_score`
leaves `net_score` unchanged. -/
theorem sizeMetric_calculate_ignores_input (input : SizeInput) :
    SizeMetric.calculate input = ⟨0, 0, 0, 0⟩
    ∧ sizeMean (some (SizeMetric.calculate input).values) = 0
    ∧ (∀ (url : PyStr) (mr : MetricsResults),
        (process_url url
          { mr with size_score := some (SizeMetric.calculate input).values }).net_score
        = (process_url url { mr with size_score := none }).net_score) := by
  have h : SizeMetric.calculate input = ⟨0, 0, 0, 0⟩ := by
    unfold SizeMetric.calculate SizeMetric.get_data SizeMetric.calculate_score
    norm_num
  refine ⟨h, ?_, ?_⟩
  · rw [h]
    simp [sizeMean, SizeScores.values]
  · intro url mr
    rw [h]
    unfold process_url sizeMean
    norm_num [SizeScores.values]

/-- Above the threshold the per-device size score is non-increasing. -/
theorem deviceScore_anti_above {T s1 s2 : ℚ} (hT : 0 < T)
    (h1 : T < s1) (h12 : s1 ≤ s2) : deviceScore T s2 ≤ deviceScore T s1 := by
  have hs2 : T < s2 := lt_of_lt_of_le h1 h12
  simp only [deviceScore]
  rw [if_neg (not_le.mpr hs2), if_neg (not_le.mpr h1)]
  apply round2_mono
  apply max_le_max (le_refl 0)
  apply min_le_min _ (le_refl 1)
  apply max_le_max (le_refl 0)
  have hdiv : (s1 - T) / (2 * T) ≤ (s2 - T) / (2 * T) := by
    gcongr
  linarith

/-- At or below the threshold the per-device size score is also
non-increasing (the full-credit curve `0.5 + 0.5*(1 - s/T)` decreases in
`s`). -/
theorem deviceScore_anti_below {T s1 s2 : ℚ} (hT : 0 < T)
    (_h0 : 0 < s1) (h12 : s1 ≤ s2) (h2 : s2 ≤ T) :
    deviceScore T s2 ≤ deviceScore T s1 := by
  have hs1 : s1 ≤ T := le_trans h12 h2
  simp only [deviceScore]
  rw [if_pos h2, if_pos hs1]
  apply round2_mono
  apply max_le_max (le_refl 0)
  apply min_le_min _ (le_refl 1)
  have hdiv : s1 / T ≤ s2 / T := by
    gcongr
  linarith

/-- C5 (amended): for each device class with threshold `T` in
`SizeMetric.calculate_score`, the per-device score as a function of a
positive size is monotonically non-increasing for sizes above `T`, and
monotonically non-increasing (not non-decreasing) for sizes at or below
`T`. -/
theorem deviceScore_monotone_per_branch :
    ∀ T ∈ [(50 : ℚ), 200, 2000, 10000], ∀ s1 s2 : ℚ,
      (T < s1 → s1 ≤ s2 → deviceScore T s2 ≤ deviceScore T s1)
      ∧ (0 < s1 → s1 ≤ s2 → s2 ≤ T → deviceScore T s2 ≤ deviceScore T s1) := by
  intro T hT s1 s2
  have hT0 : 0 < T := by
    simp only [List.mem_cons, List.not_mem_nil, or_false] at hT
    rcases hT with rfl | rfl | rfl | rfl <;> norm_num
  exact ⟨fun h1 h12 => deviceScore_anti_above hT0 h1 h12,
    fun h0 h12 h2 => deviceScore_anti_below hT0 h0 h12 h2⟩

/-- C5 witness: both branches instantiated at the raspberry_pi threshold. -/
theorem deviceScore_monotone_per_branch_witness :
    (50 : ℚ) ∈ [(50 : ℚ), 200, 2000, 10000]
    ∧ deviceScore 50 70 ≤ deviceScore 50 60
    ∧ deviceScore 50 30 ≤ deviceScore 50 20 :=
  ⟨by simp,
   (deviceScore_monotone_per_branch 50 (by simp) 60 70).1 (by norm_num) (by norm_num),
   (deviceScore_monotone_per_branch 50 (by simp) 20 30).2 (by norm_num) (by norm_num)
     (by norm_num)⟩

/-- C5 counterexample: below the threshold the score is strictly
decreasing, not non-decreasing — at threshold 50, size 1 scores `0.99`
while size 50 scores `0.5`. -/
theorem deviceScore_below_threshold_decreases :
    (0 : ℚ) < 1 ∧ (1 : ℚ) ≤ 50 ∧ (50 : ℚ) ≤ 50
    ∧ deviceScore 50 50 < deviceScore 50 1 := by
  have e1 : deviceScore 50 1 = 99 / 100 := by
    simp only [deviceScore]
    rw [if_pos (by norm_num : (1 : ℚ) ≤ 50),
      show (1 / 2 + 1 / 2 * (1 - (1 : ℚ) / 50)) = 99 / 100 by norm_num,
      show min (99 / 100 : ℚ) 1 = 99 / 100 from min_eq_left (by norm_num),
      show max (0 : ℚ) (99 / 100) = 99 / 100 from max_eq_right (by norm_num)]
    exact round2_eq_self_of_den _ 99 (by norm_num)
  have e2 : deviceScore 50 50 = 1 / 2 := by
    simp only [deviceScore]
    rw [if_pos (by norm_num : (50 : ℚ) ≤ 50),
      show (1 / 2 + 1 / 2 * (1 - (50 : ℚ) / 50)) = 1 / 2 by norm_num,
      show min (1 / 2 : ℚ) 1 = 1 / 2 from min_eq_left (by norm_num),
      show max (0 : ℚ) (1 / 2) = 1 / 2 from max_eq_right (by norm_num)]
    exact round2_eq_self_of_den _ 50 (by norm_num)
  refine ⟨by norm_num, by norm_num, by norm_num, ?_⟩
  rw [e1, e2]
  norm_num

/-- C6 counterexample: the ramp-up score is not bounded below by `0.0` —
a feature-data record with no positive components, model complexity
`large` (penalty `-0.05`) and category `MODEL` scores `-0.05 < 0`. -/
theorem rampup_score_negative_counterexample :
    RampUpMetric.calculate_score
      ⟨"MODEL".data, false, false, false, false, "large".data, false, 0⟩ < 0 := by
  have h1 : ("large".data : PyStr) ≠ "small".data := by decide
  have h3 : ("MODEL".data : PyStr) ≠ "DATASET".data := by decide
  have h4 : ("MODEL".data : PyStr) ≠ "CODE".data := by decide
  simp only [RampUpMetric.calculate_score, h1, h3, h4]
  norm_num [min_def]

/-- The score expression of `RampUpMetric.calculate_score`, written out. -/
theorem rampup_score_eq (d : RampUpData) :
    RampUpMetric.calculate_score d =
      min ((if d.has_clear_documentation then
              if 300 < d.description_length then (0.30 : ℚ)
              else if 150 < d.description_length then 0.25
              else if 100 < d.description_length then 0.15
              else 0.10
            else 0)
        + (if d.has_quick_start_guide then (0.25 : ℚ) else 0)
        + (if d.has_installation_instructions then (0.20 : ℚ) else 0)
        + (if d.has_runnable_examples then (0.15 : ℚ) else 0)
        + (if d.has_minimal_dependencies then (0.10 : ℚ) else 0)
        + (if d.model_complexity = "small".data then (0.05 : ℚ)
           else if d.model_complexity = "large".data then -0.05
           else 0)
        + (if d.category = "DATASET".data then (0.05 : ℚ)
           else if d.category = "CODE".data ∧ ¬d.has_runnable_examples then -0.05
           else 0)) 1 := rfl

/-- C6 (amended): for every feature-data record, the ramp-up-time score of
`RampUpMetric.calculate_score` lies in `[-0.1, 1.0]`: the additive
components are capped above at `1.0` by `min(score, 1.0)`, but the
complexity and category penalties (`-0.05` each, no lower clamp) can push
the score down to `-0.10`. -/
theorem rampup_score_bounds (d : RampUpData) :
    -(1/10 : ℚ) ≤ RampUpMetric.calculate_score d
    ∧ RampUpMetric.calculate_score d ≤ 1 := by
  rw [rampup_score_eq]
  constructor
  · apply le_min _ (by norm_num)
    have hA : (0 : ℚ) ≤ (if d.has_clear_documentation then
        if 300 < d.description_length then (0.30 : ℚ)
        else if 150 < d.description_length then 0.25
        else if 100 < d.description_length then 0.15
        else 0.10
      else 0) := by split_ifs <;> norm_num
    have hB : (0 : ℚ) ≤ (if d.has_quick_start_guide then (0.25 : ℚ) else 0) := by
      split_ifs <;> norm_num
    have hC : (0 : ℚ) ≤ (if d.has_installation_instructions then (0.20 : ℚ) else 0) := by
      split_ifs <;> norm_num
    have hD : (0 : ℚ) ≤ (if d.has_runnable_examples then (0.15 : ℚ) else 0) := by
      split_ifs <;> norm_num
    have hE : (0 : ℚ) ≤ (if d.has_minimal_dependencies then (0.10 : ℚ) else 0) := by
      split_ifs <;> norm_num
    have hF : -(0.05 : ℚ) ≤ (if d.model_complexity = "small".data then (0.05 : ℚ)
        else if d.model_complexity = "large".data then -0.05
        else 0) := by split_ifs <;> norm_num
    have hG : -(0.05 : ℚ) ≤ (if d.category = "DATASET".data then (0.05 : ℚ)
        else if d.category = "CODE".data ∧ ¬d.has_runnable_examples then -0.05
        else 0) := by split_ifs <;> norm_num
    linarith
  · exact min_le_right _ _

/-- C7 counterexample: when no license can be resolved at all
(`get_data` returns `None`), `LicenseMetric.calculate` scores `0.0`,
not the claimed `0.2` unknown floor. -/
theorem license_unresolvable_scores_zero :
    LicenseMetric.calculate (.ok (none, none)) = 0 ∧ (0 : ℚ) ≠ 0.2 := by
  constructor
  · simp only [LicenseMetric.calculate, LicenseMetric.get_data,
      LicenseMetric.score_of]
    exact round2_zero
  · norm_num

/-- C7 (amended): the license score of `LicenseMetric.calculate` is
determined by the resolved license identifier alone: `1.0` on the
permissive set, `0.7` on the copyleft set, `0.5` when the normalized
identifier contains `custom`, `0.2` for `unknown` or any other resolvable
value — and `0.0` (not `0.2`) when no license field can be resolved at
all. -/
theorem license_calculate_matches_tier_table
    (license_field fallback : Option PyStr) :
    LicenseMetric.calculate (.ok (license_field, fallback)) =
      licenseTierSpec (LicenseMetric.get_data license_field fallback) := by
  simp only [LicenseMetric.calculate]
  generalize LicenseMetric.get_data license_field fallback = ls
  cases ls with
  | none =>
    simpa [LicenseMetric.score_of, licenseTierSpec] using round2_zero
  | some s =>
    simp only [LicenseMetric.score_of, licenseTierSpec]
    by_cases h0 : s = []
    · simp [h0, round2_zero]
    · rw [if_neg h0, if_neg h0]
      split_ifs
      · exact round2_eq_self_of_den _ 100 (by norm_num)
      · exact round2_eq_self_of_den _ 70 (by norm_num)
      · exact round2_eq_self_of_den _ 50 (by norm_num)
      · exact round2_eq_self_of_den _ 20 (by norm_num)
      · exact round2_eq_self_of_den _ 20 (by norm_num)

/-- C8 counterexample: in the utils-hierarchy license calculator the score
is not invariant under trimming — `" custom "` scores `0` while its
lower-cased trimmed form `"custom"` scores `0.5`. -/
theorem utils_license_not_invariant_under_trim :
    UtilsLicenseMetric.calculate_metric (some " custom ".data)
      ≠ UtilsLicenseMetric.calculate_metric
          (some (pyLower (pyStrip " custom ".data))) := by
  have h1 : UtilsLicenseMetric.calculate_metric (some " custom ".data) = 0 := by
    simp only [UtilsLicenseMetric.calculate_metric, Option.getD_some]
    rw [if_neg (by decide), if_neg (by decide), if_neg (by decide),
      if_neg (by decide)]
  have h2 : pyLower (pyStrip " custom ".data) = "custom".data := by decide
  have h3 : UtilsLicenseMetric.calculate_metric (some "custom".data) = 0.5 := by
    simp only [UtilsLicenseMetric.calculate_metric, Option.getD_some]
    rw [if_pos (by decide)]
  rw [h1, h2, h3]
  norm_num

/-- C8 (amended): for the aggregator-side `LicenseMetric` the score is a
pure function of the lower-cased, whitespace-trimmed license string — any
license string and its normalization receive the same score, and `mit`,
`MIT` and `  mit  ` all score identically; the utils-hierarchy calculator
normalizes by lower-casing only (no trim), so for it only lower-casing
invariance holds, and trimming can change its score. -/
theorem license_score_pure_in_normalized_string :
    (∀ (s : PyStr) (fallback : Option PyStr),
        LicenseMetric.calculate (.ok (some s, fallback)) =
          LicenseMetric.calculate (.ok (some (pyLower (pyStrip s)), fallback)))
    ∧ (∀ s : PyStr,
        UtilsLicenseMetric.calculate_metric (some s) =
          UtilsLicenseMetric.calculate_metric (some (pyLower s)))
    ∧ (LicenseMetric.calculate (.ok (some "mit".data, none)) = 1
       ∧ LicenseMetric.calculate (.ok (some "MIT".data, none)) = 1
       ∧ LicenseMetric.calculate (.ok (some " mit ".data, none)) = 1) := by
  refine ⟨?_, ?_, ?_, ?_, ?_⟩
  · intro s fallback
    simp only [LicenseMetric.calculate, LicenseMetric.get_data]
    by_cases h : pyStrip s = []
    · have hl : pyLower (pyStrip s) = [] := by
        rw [h]
        rfl
      rw [if_neg (not_not_intro h), hl,
        if_neg (not_not_intro (show pyStrip ([] : PyStr) = [] from rfl))]
    · have hl : pyLower (pyStrip s) ≠ [] := by
        simpa [pyLower_eq_nil_iff] using h
      have hstrip2 : pyStrip (pyLower (pyStrip s)) = pyLower (pyStrip s) := by
        rw [pyStrip_pyLower, pyStrip_idem]
      rw [if_pos h, if_pos (by rw [hstrip2]; exact hl), hstrip2]
      simp only [LicenseMetric.score_of]
      rw [if_neg h, if_neg hl, pyStrip_idem, pyStrip_pyLower, pyStrip_idem,
        pyLower_idem]
  · intro s
    simp only [UtilsLicenseMetric.calculate_metric, Option.getD_some,
      pyLower_idem]
  · have hg : LicenseMetric.get_data (some "mit".data) none = some "mit".data := by
      decide
    simp only [LicenseMetric.calculate, hg, LicenseMetric.score_of]
    rw [if_neg (by decide),
      show pyLower (pyStrip "mit".data) = "mit".data from by decide,
      if_pos (by decide)]
    exact round2_eq_self_of_den _ 100 (by norm_num)
  · have hg : LicenseMetric.get_data (some "MIT".data) none = some "MIT".data := by
      decide
    simp only [LicenseMetric.calculate, hg, LicenseMetric.score_of]
    rw [if_neg (by decide),
      show pyLower (pyStrip "MIT".data) = "mit".data from by decide,
      if_pos (by decide)]
    exact round2_eq_self_of_den _ 100 (by norm_num)
  · have hg : LicenseMetric.get_data (some " mit ".data) none = some "mit".data := by
      decide
    simp only [LicenseMetric.calculate, hg, LicenseMetric.score_of]
    rw [if_neg (by decide),
      show pyLower (pyStrip "mit".data) = "mit".data from by decide,
      if_pos (by decide)]
    exact round2_eq_self_of_den _ 100 (by norm_num)

/-- C9: the performance-claims score is computed only for MODEL records —
every non-MODEL record scores `0.0` — the final score is capped at `1.0`,
a MODEL record whose additive components all contribute zero scores exactly
`0.1`, and in particular a MODEL record resolved from upstream data with no
tags, no results and zero downloads/likes yields exactly `0.1`. -/
theorem performance_claims_policy :
    (∀ d : PerfData, d.category ≠ "MODEL".data →
        PerformanceClaimsMetric.calculate_score d = 0)
    ∧ (∀ d : PerfData, PerformanceClaimsMetric.calculate_score d ≤ 1)
    ∧ (∀ d : PerfData, d.category = "MODEL".data →
        (∀ n ∈ d.model_index, n = 0) →
        d.tags.any (fun tag => perf_tags.any (fun pt => pyContains (pyLower tag) pt)) = false →
        d.cardData_model_index = false →
        d.downloads ≤ 100 → d.likes ≤ 5 →
        PerformanceClaimsMetric.calculate_score d = 0.1)
    ∧ PerformanceClaimsMetric.calculate_score
        (PerformanceClaimsMetric.get_data ⟨none, some "MODEL".data⟩) = 0.1 := by
  refine ⟨?_, ?_, ?_, ?_⟩
  · intro d h
    simp only [PerformanceClaimsMetric.calculate_score]
    rw [if_pos h]
  · intro d
    simp only [PerformanceClaimsMetric.calculate_score]
    split
    · norm_num
    · exact min_le_right _ _
  · intro d hcat hmi htags hcard hdl hlk
    simp only [PerformanceClaimsMetric.calculate_score]
    rw [if_neg (not_not_intro hcat)]
    have h1 : d.model_index.find? (fun n => decide (0 < n)) = none := by
      rw [List.find?_eq_none]
      intro n hn
      simp [hmi n hn]
    have h4a : ¬(100000 < d.downloads ∨ 500 < d.likes) := by omega
    have h4b : ¬(10000 < d.downloads ∨ 100 < d.likes) := by omega
    have h4c : ¬(1000 < d.downloads ∨ 10 < d.likes) := by omega
    have h4d : ¬(100 < d.downloads ∨ 5 < d.likes) := by omega
    simp only [h1, htags, hcard]
    rw [if_neg h4a, if_neg h4b, if_neg h4c, if_neg h4d]
    norm_num [min_def]
  · have hg : PerformanceClaimsMetric.get_data ⟨none, some "MODEL".data⟩ =
        ⟨[], [], false, 0, 0, "MODEL".data⟩ := rfl
    rw [hg]
    simp only [PerformanceClaimsMetric.calculate_score]
    rw [if_neg (not_not_intro rfl)]
    norm_num [List.find?_nil, List.any_nil, min_def]

/-- C9 witness: the zero-component clause applied to the empty MODEL
record, and the non-MODEL clause applied to a DATASET record. -/
theorem performance_claims_policy_witness :
    PerformanceClaimsMetric.calculate_score ⟨[], [], false, 0, 0, "MODEL".data⟩ = 0.1
    ∧ PerformanceClaimsMetric.calculate_score ⟨[], [], false, 0, 0, "DATASET".data⟩ = 0 :=
  ⟨performance_claims_policy.2.2.1 ⟨[], [], false, 0, 0, "MODEL".data⟩ rfl
      (by simp) (by simp) rfl (by norm_num) (by norm_num),
   performance_claims_policy.1 ⟨[], [], false, 0, 0, "DATASET".data⟩ (by decide)⟩

/-- `get_data` does not change the number of distinct stripped authors:
first-occurrence de-duplication on the raw values keeps exactly the distinct
raw values, and stripping afterwards yields the same set as stripping the
whole filtered list. -/
theorem busfactor_get_data_dedup_count (pre : List PyStr) :
    (BusFactorMetric.get_data pre).dedup.length =
      ((pre.filter (fun a => a ≠ [])).map pyStrip).dedup.length := by
  apply dedup_length_congr
  intro x
  simp only [BusFactorMetric.get_data, List.mem_map]
  constructor
  · rintro ⟨a, ha, rfl⟩
    exact ⟨a, (mem_pyFirstDedup _ a).mp ha, rfl⟩
  · rintro ⟨a, ha, rfl⟩
    exact ⟨a, (mem_pyFirstDedup _ a).mpr ha, rfl⟩

/-- `min(1, u/50)` has at most two decimal places, so `round(·, 2)` fixes
it. -/
theorem round2_min_one_div50 (u : ℕ) :
    round2 (min 1 ((u : ℚ) / 50)) = min 1 ((u : ℚ) / 50) := by
  rcases le_or_lt 50 u with h | h
  · have hm : min 1 ((u : ℚ) / 50) = 1 := by
      apply min_eq_left
      rw [le_div_iff₀ (by norm_num)]
      norm_num
      exact_mod_cast h
    rw [hm]
    exact round2_eq_self_of_den _ 100 (by norm_num)
  · have hm : min 1 ((u : ℚ) / 50) = (u : ℚ) / 50 := by
      apply min_eq_right
      rw [div_le_one (by norm_num)]
      exact_mod_cast le_of_lt h
    rw [hm]
    exact round2_eq_self_of_den _ (2 * u) (by push_cast; ring)

/-- C10 (amended): given a record carrying a pre-supplied (non-empty)
`commit_authors` list of strings, the bus-factor score is
`min(1.0, u/50)` where `u` is the number of distinct values obtained by
stripping the non-empty entries of that list (entries that differ only by
surrounding whitespace, and empty entries, are not counted separately);
the score is `0.0` when no commit data is resolvable (no authors); and for
`["alice", "bob", "alice"]` the distinct count is 2 and the score
`2/50 = 0.04`. -/
theorem bus_factor_score_formula :
    (∀ pre : List PyStr, pre ≠ [] →
        BusFactorMetric.calculate pre =
          min 1 (((((pre.filter (fun a => a ≠ [])).map pyStrip).dedup.length : ℕ) : ℚ) / 50))
    ∧ BusFactorMetric.score_of_authors [] = 0
    ∧ BusFactorMetric.calculate ["alice".data, "bob".data, "alice".data] = 1/25 := by
  refine ⟨?_, ?_, ?_⟩
  · intro pre _h
    unfold BusFactorMetric.calculate BusFactorMetric.score_of_authors
    rw [busfactor_get_data_dedup_count]
    set u := ((pre.filter (fun a => a ≠ [])).map pyStrip).dedup.length with hu
    by_cases h0 : 0 < u
    · rw [if_pos h0]
      exact round2_min_one_div50 u
    · rw [if_neg h0]
      have hz : u = 0 := by omega
      rw [hz, round2_zero]
      norm_num
  · simp [BusFactorMetric.score_of_authors]
  · have hg : BusFactorMetric.get_data
        ["alice".data, "bob".data, "alice".data] =
        ["alice".data, "bob".data] := by decide
    have hd : (["alice".data, "bob".data] : List PyStr).dedup.length = 2 := by
      decide
    unfold BusFactorMetric.calculate BusFactorMetric.score_of_authors
    rw [hg, hd, if_pos (by norm_num)]
    rw [min_eq_right (by norm_num : ((2 : ℕ) : ℚ) / 50 ≤ 1),
      show ((2 : ℕ) : ℚ) / 50 = 1/25 by norm_num]
    exact round2_eq_self_of_den _ 4 (by norm_num)

/-- C10 witness: the formula applied to the spec's example list. -/
theorem bus_factor_score_formula_witness :
    (["alice".data, "bob".data, "alice".data] : List PyStr) ≠ []
    ∧ BusFactorMetric.calculate ["alice".data, "bob".data, "alice".data] =
        min 1 ((((["alice".data, "bob".data, "alice".data].filter
            (fun a => a ≠ [])).map pyStrip).dedup.length : ℚ) / 50) :=
  ⟨by decide, bus_factor_score_formula.1 _ (by decide)⟩

/-- C10 counterexample: the distinct count is taken after stripping, so the
two raw-distinct identifiers `"alice"` and `" alice "` collapse to one —
the score is `1/50 = 0.02`, not `min(1, 2/50) = 0.04`. -/
theorem bus_factor_strip_collision :
    BusFactorMetric.calculate ["alice".data, " alice ".data] = 1/50
    ∧ (1/50 : ℚ) ≠ min 1 (2/50) := by
  constructor
  · have hg : BusFactorMetric.get_data ["alice".data, " alice ".data] =
        ["alice".data, "alice".data] := by decide
    have hd : (["alice".data, "alice".data] : List PyStr).dedup.length = 1 := by
      decide
    unfold BusFactorMetric.calculate BusFactorMetric.score_of_authors
    rw [hg, hd, if_pos (by norm_num)]
    rw [min_eq_right (by norm_num : ((1 : ℕ) : ℚ) / 50 ≤ 1),
      show ((1 : ℕ) : ℚ) / 50 = 1/50 by norm_num]
    exact round2_eq_self_of_den _ 2 (by norm_num)
  · rw [min_eq_right (by norm_num : (2 : ℚ) / 50 ≤ 1)]
    norm_num
